import Mathlib

/-!
Verification of the LocalChatbot repository (a Tauri/React local RAG chat
application) against its natural-language specification.

The TypeScript sources under `src/` are shallowly embedded below:
React hooks become pure functions over explicit state, `invoke` calls into
the (absent) Rust backend become parameters carrying the backend's outcome,
and JavaScript numbers are modelled as rationals. Event-driven behaviour
(button clicks, `setTimeout` callbacks) is modelled as a labelled transition
system over explicit states.
-/

namespace LocalChatbot

/-- Index lifecycle status, from `src/types/index.ts` (`IndexStatus`). -/
inductive IndexStatus
  | ready
  | indexing
  | error
deriving DecidableEq, Repr

/-- Embedding model status, from `src/types/index.ts` (`ModelStatus`). -/
inductive ModelStatus
  | not_loaded
  | loading
  | ready
  | error
deriving DecidableEq, Repr

/-! ## Settings (`src/hooks/useSettings.ts`) -/

/-- Settings, from `src/types/index.ts` (`Settings`). Numeric fields are
JavaScript numbers, modelled as rationals; `theme` is kept as a string. -/
structure Settings where
  temperature : ℚ
  maxTokens : ℚ
  chunkSize : ℚ
  topK : ℚ
  theme : String
deriving DecidableEq, Repr

/-- `defaultSettings` from `src/hooks/useSettings.ts`. -/
def defaultSettings : Settings :=
  { temperature := 7/10, maxTokens := 2048, chunkSize := 512, topK := 5,
    theme := "system" }

/-- A `Partial<Settings>`: each field optionally present, as in the
`updates` argument of `updateSettings`. -/
structure SettingsUpdate where
  temperature : Option ℚ := none
  maxTokens : Option ℚ := none
  chunkSize : Option ℚ := none
  topK : Option ℚ := none
  theme : Option String := none
deriving DecidableEq, Repr

/-- JavaScript object spread `{ ...prev, ...updates }`: a field present in
`updates` wins, otherwise the previous value is kept. -/
def mergeSettings (prev : Settings) (updates : SettingsUpdate) : Settings :=
  { temperature := updates.temperature.getD prev.temperature,
    maxTokens := updates.maxTokens.getD prev.maxTokens,
    chunkSize := updates.chunkSize.getD prev.chunkSize,
    topK := updates.topK.getD prev.topK,
    theme := updates.theme.getD prev.theme }

/-- `updateSettings` from `src/hooks/useSettings.ts`:
`setSettingsState(prev => ({ ...prev, ...updates }))`. No clamping or
validation is performed. -/
def updateSettings (prev : Settings) (updates : SettingsUpdate) : Settings :=
  mergeSettings prev updates

/-- The initial-state loader in `useSettings`: reads `localStorage`; absent
key or a JSON parse failure yields `defaultSettings`, otherwise the parsed
object is spread over the defaults. The stored string and its parse outcome
are modelled together as `Option (Except String SettingsUpdate)`. -/
def loadSettings (stored : Option (Except String SettingsUpdate)) : Settings :=
  match stored with
  | none => defaultSettings
  | some (Except.error _) => defaultSettings
  | some (Except.ok u) => mergeSettings defaultSettings u

/-- The configured ranges of spec §6: `temperature ∈ [0,1]`,
`maxTokens ∈ [256, 8192]`, `chunkSize ∈ [128, 2048]`, `topK ∈ [1, 20]`. -/
def settingsInRange (s : Settings) : Prop :=
  (0 ≤ s.temperature ∧ s.temperature ≤ 1) ∧
  (256 ≤ s.maxTokens ∧ s.maxTokens ≤ 8192) ∧
  (128 ≤ s.chunkSize ∧ s.chunkSize ≤ 2048) ∧
  (1 ≤ s.topK ∧ s.topK ≤ 20)

instance (s : Settings) : Decidable (settingsInRange s) := by
  unfold settingsInRange; infer_instance

/-- A field value, when present, lies in `[lo, hi]`. -/
def optInRange (lo hi : ℚ) : Option ℚ → Prop
  | none => True
  | some x => lo ≤ x ∧ x ≤ hi

instance (lo hi : ℚ) (o : Option ℚ) : Decidable (optInRange lo hi o) :=
  match o with
  | none => isTrue trivial
  | some x => inferInstanceAs (Decidable (lo ≤ x ∧ x ≤ hi))

/-- Every field a `SettingsUpdate` actually provides lies in its range. -/
def updateInRange (u : SettingsUpdate) : Prop :=
  optInRange 0 1 u.temperature ∧ optInRange 256 8192 u.maxTokens ∧
  optInRange 128 2048 u.chunkSize ∧ optInRange 1 20 u.topK

instance (u : SettingsUpdate) : Decidable (updateInRange u) := by
  unfold updateInRange; infer_instance

/-! ## Embedding Engine frontend (`src/hooks/useEmbedding.ts`) -/

/-- Backend search result, from `src/hooks/useEmbedding.ts` (`SearchResult`).
The score is a JavaScript number, modelled as a rational. -/
structure SearchResult where
  chunk_id : String
  document_id : String
  content : String
  score : ℚ
deriving DecidableEq, Repr

/-- The `search` callback of `useEmbedding`. The `invoke('search_documents')`
call into the Rust backend is a parameter carrying that call's outcome
(`Except.error` models a rejected promise). Every control path of the
TypeScript function returns a plain result list: a non-`ready` model status
logs a warning and returns `[]`, a blank query returns `[]`, and a backend
failure is caught and becomes `[]`. -/
def search (modelStatus : ModelStatus) (query : String)
    (backend : Except String (List SearchResult)) :
    Except String (List SearchResult) :=
  if modelStatus ≠ ModelStatus.ready then Except.ok []
  else if query.trim.isEmpty then Except.ok []
  else
    match backend with
    | Except.ok results => Except.ok results
    | Except.error _ => Except.ok []

/-- The `initModel` closure of `useEmbedding`'s mount effect. `isLoaded` is
the backend's `is_model_loaded` answer; `loadResult` the outcome of
`invoke('init_embedding_model')` (consulted only when `isLoaded` is false).
Returns the sequence of `setModelStatus` writes, in order, paired with
whether `init_embedding_model` was invoked at all. -/
def initModel (isLoaded : Bool) (loadResult : Except String Unit) :
    List ModelStatus × Bool :=
  (ModelStatus.loading ::
    (if isLoaded then [ModelStatus.ready]
     else
       match loadResult with
       | Except.ok _ => [ModelStatus.ready]
       | Except.error _ => [ModelStatus.error]),
   !isLoaded)

/-! ## Chat input gating (`src/components/chat/ChatInput.tsx`, unnamed part) -/

/-- The `handleSend` closure of `ChatInput`: dispatches `onSend` with the
trimmed message only when the trimmed message is truthy (non-empty) and
neither `disabled` nor `isLoading` holds; `MainLayout` wires `isLoading`
to `useChat`'s pending-response flag. Returns the dispatched message, or
`none` when the action is rejected. -/
def handleSend (message : String) (disabled isLoading : Bool) :
    Option String :=
  if !message.trim.isEmpty && !disabled && !isLoading then some message.trim
  else none

/-! ## Backend message conversion (`src/types/index.ts`) -/

/-- JSON values, as produced by the JavaScript `JSON.parse`. -/
inductive Json
  | null
  | bool (b : Bool)
  | num (q : ℚ)
  | str (s : String)
  | arr (elems : List Json)
  | obj (fields : List (String × Json))

/-- Message row as returned by the Rust backend, from `src/types/index.ts`
(`BackendMessage`); `sources` is a nullable JSON string. -/
structure BackendMessage where
  id : String
  chat_id : String
  role : String
  content : String
  timestamp : String
  sources : Option String

/-- A JavaScript `Date` constructed from an ISO string (`new Date(s)`). -/
structure DateOf where
  iso : String
deriving DecidableEq, Repr

/-- The frontend `Message` exactly as `convertBackendMessage` builds it:
`sources` receives whatever `JSON.parse` produced, without validation, so
it is modelled as an optional `Json` value. -/
structure RawMessage where
  id : String
  role : String
  content : String
  timestamp : DateOf
  sources : Option Json

/-- `convertBackendMessage` from `src/types/index.ts`. `parseJson` stands
for the runtime's `JSON.parse`, returning `none` where `JSON.parse` throws
(the `try`/`catch` then leaves `sources` undefined). The `if (backend.sources)`
truthiness test skips both `null` and the empty string. -/
def convertBackendMessage (parseJson : String → Option Json)
    (backend : BackendMessage) : RawMessage :=
  { id := backend.id,
    role := backend.role,
    content := backend.content,
    timestamp := { iso := backend.timestamp },
    sources :=
      match backend.sources with
      | none => none
      | some s => if s = "" then none else parseJson s }

/-! ## Index lifecycle (`src/hooks/useDocuments.ts`, `IndexStatus.tsx`)

The index status lives in `useDocuments` and is mutated by exactly three
kinds of callbacks: a successful `upload_document` invoke sets it to
`indexing` and schedules a 1500 ms `setTimeout` that sets it back to
`ready`; a click on the Rebuild button (enabled only while the status is
not `indexing`, see `IndexStatus.tsx`) sets it to `indexing` and, after a
2000 ms await, back to `ready`. These event handlers are embedded as a
labelled transition system; timer callbacks are events of their own, so
every interleaving of scheduled callbacks is represented. -/

/-- Observable state of the index lifecycle: the displayed status, the
number of pending upload `setTimeout` callbacks, and the number of
`rebuildIndex` calls currently between their two status writes. -/
structure IndexState where
  status : IndexStatus
  pendingUploadTimers : ℕ
  runningRebuilds : ℕ
deriving DecidableEq, Repr

/-- Events of the index lifecycle. -/
inductive IndexEvent
  | uploadAccepted
  | uploadTimerFired
  | rebuildClicked
  | rebuildFinished
deriving DecidableEq, Repr

/-- One event of the index lifecycle.
`uploadAccepted`: `upload_document` succeeded, `setIndexStatus('indexing')`
runs and a timer is scheduled. `uploadTimerFired`: a scheduled upload timer
runs `setIndexStatus('ready')`. `rebuildClicked`: the Rebuild button is a
no-op while `status === 'indexing'` (it is disabled), otherwise
`rebuildIndex` starts and writes `indexing`. `rebuildFinished`: a running
`rebuildIndex` passes its await and writes `ready`. -/
def indexStep (s : IndexState) : IndexEvent → IndexState
  | IndexEvent.uploadAccepted =>
      { s with status := IndexStatus.indexing,
               pendingUploadTimers := s.pendingUploadTimers + 1 }
  | IndexEvent.uploadTimerFired =>
      if s.pendingUploadTimers = 0 then s
      else { s with status := IndexStatus.ready,
                    pendingUploadTimers := s.pendingUploadTimers - 1 }
  | IndexEvent.rebuildClicked =>
      if s.status = IndexStatus.indexing then s
      else { s with status := IndexStatus.indexing,
                    runningRebuilds := s.runningRebuilds + 1 }
  | IndexEvent.rebuildFinished =>
      if s.runningRebuilds = 0 then s
      else { s with status := IndexStatus.ready,
                    runningRebuilds := s.runningRebuilds - 1 }

/-- Run a sequence of index lifecycle events. -/
def indexRun (s : IndexState) (events : List IndexEvent) : IndexState :=
  events.foldl indexStep s

/-- Initial state: `useState<IndexStatus>('ready')`, no pending callbacks. -/
def initialIndexState : IndexState :=
  { status := IndexStatus.ready, pendingUploadTimers := 0, runningRebuilds := 0 }

/-! ## Chunker (spec §4.1; no implementation exists under `src/`) -/

/-- Chunking failures described in spec §4.1. -/
inductive ChunkingError
  | emptyText
  | invalidParams
deriving DecidableEq, Repr

/-- Modelled from the spec: the repository's `src/` tree contains no Chunker
implementation (the Rust backend behind `upload_document` is absent), so the
window computation follows spec §4.1 — windows of `chunkSize` characters
advancing by `chunkSize - overlap`, the final window truncated to the
remaining text. Boundaries depend only on the text length, so the text is
represented by its length. The fuel argument bounds the recursion; `chunk`
supplies enough for the loop to run to completion. -/
def chunkSpansAux : ℕ → ℕ → ℕ → ℕ → ℕ → List (ℕ × ℕ)
  | 0, _, _, _, _ => []
  | fuel + 1, chunkSize, step, len, start =>
      if start + chunkSize < len then
        (start, start + chunkSize) ::
          chunkSpansAux fuel chunkSize step len (start + step)
      else
        [(start, len)]

/-- Modelled from the spec: `chunk(text, chunkSize, overlap)` of §4.1,
over the text length. Fails with `ChunkingError` only when the text is
empty or the parameters violate `chunkSize > overlap ≥ 0`. -/
def chunk (textLen chunkSize overlap : ℕ) :
    Except ChunkingError (List (ℕ × ℕ)) :=
  if textLen = 0 then Except.error ChunkingError.emptyText
  else if chunkSize ≤ overlap then Except.error ChunkingError.invalidParams
  else Except.ok (chunkSpansAux textLen chunkSize (chunkSize - overlap) textLen 0)

/-! ## Vector index search (spec §4.3/§4.5; backend absent from `src/`) -/

/-- Clamp a similarity score into `[0,1]`, the glossary's mapping of cosine
similarity to relevance. -/
def clamp01 (x : ℚ) : ℚ := max 0 (min 1 x)

/-- Stable insertion into a list sorted by non-increasing score: the new
result is placed before the first strictly smaller score, so earlier
results stay ahead of equal-scored later ones (spec §4.3 tie-breaking). -/
def insertByScore (r : SearchResult) : List SearchResult → List SearchResult
  | [] => [r]
  | x :: xs =>
      if r.score < x.score then x :: insertByScore r xs
      else r :: x :: xs

/-- Stable sort by non-increasing score. -/
def sortByScoreDesc : List SearchResult → List SearchResult
  | [] => []
  | x :: xs => insertByScore x (sortByScoreDesc xs)

/-- Modelled from the spec: the `search_documents` backend command behind
`useEmbedding.search` is absent from `src/`, so this follows spec
§4.3/§4.5 — each entry's raw cosine score is mapped into `[0,1]`, results
are ordered by descending score with ties broken by insertion order, and
`topK` is clamped to the number of entries (an empty or small index simply
returns fewer results, never an error). -/
def searchDocuments (entries : List SearchResult) (topK : ℕ) :
    List SearchResult :=
  (sortByScoreDesc
    (entries.map (fun r => { r with score := clamp01 r.score }))).take topK

/-! ## Chat pipeline (`src/hooks/useChat.ts`) -/

/-- Citation source, from `src/types/index.ts` (`DocumentSource`). -/
structure DocumentSource where
  documentId : String
  documentName : String
  chunk : String
  relevance : ℚ
deriving DecidableEq, Repr

/-- The `mockSources` array built inside `sendMessage`
(`src/hooks/useChat.ts`, step 4). -/
def mockSources : List DocumentSource :=
  [{ documentId := "d1", documentName := "knowledge-base.pdf",
     chunk := "Relevant context from your documents...", relevance := 92/100 },
   { documentId := "d2", documentName := "notes.md",
     chunk := "Additional supporting information...", relevance := 85/100 }]

/-- An apostrophe, kept out of string literals. -/
def apos : String := String.singleton (Char.ofNat 39)

/-- The `aiResponse` template string of `sendMessage` step 4. -/
def aiResponse (content : String) : String :=
  "Based on your documents, here" ++ apos ++ "s what I found regarding \"" ++
    content ++
    "\":\n\nThis is a mock response. In a real implementation, this would be generated by your AI model using RAG to retrieve relevant context from your indexed documents."

/-- A chat message as held in `useChat` state (frontend `Message`, with the
citation list it carries after the backend round-trip). -/
structure ChatMessage where
  id : String
  role : String
  content : String
  sources : Option (List DocumentSource)
deriving DecidableEq, Repr

/-- A chat as held in `useChat` state. -/
structure Chat where
  id : String
  title : String
  messages : List ChatMessage
deriving DecidableEq, Repr

/-- The `useChat` state touched by `sendMessage`. -/
structure ChatState where
  chats : List Chat
  activeChatId : Option String
  isLoading : Bool
deriving DecidableEq, Repr

/-- The title truncation of `sendMessage` step 3:
`content.slice(0, 30) + (content.length > 30 ? '...' : '')`. -/
def newChatTitle (content : String) : String :=
  content.take 30 ++ (if 30 < content.length then "..." else "")

/-- The `setChats` updater used in `sendMessage` steps 2 and 6: append a
message to the chat with the given id. -/
def appendToChat (chats : List Chat) (chatId : String) (m : ChatMessage) :
    List Chat :=
  chats.map (fun c =>
    if c.id = chatId then { c with messages := c.messages ++ [m] } else c)

/-- The `setChats` updater used in `sendMessage` step 3: retitle the chat
with the given id. -/
def retitleChat (chats : List Chat) (chatId title : String) : List Chat :=
  chats.map (fun c => if c.id = chatId then { c with title := title } else c)

set_option linter.unusedVariables false in
/-- `sendMessage` from `src/hooks/useChat.ts`, happy path. `modelStatus`
records the embedding model's state at call time; the function body never
consults it (the hook does not even import `useEmbedding`). The backend
`add_message` command (absent from `src/`) is spec-modelled as the persisted
store echoing the message it was given — in particular the
`JSON.stringify(mockSources)` string it stores parses back to `mockSources`
in `convertBackendMessage`, so the assistant message carries `mockSources`.
Fresh backend-assigned ids arrive as parameters. Returns the final state,
the user message, and the assistant message. -/
def sendMessage (modelStatus : ModelStatus) (st : ChatState)
    (content : String) (newChatId userMsgId asstMsgId : String) :
    ChatState × ChatMessage × ChatMessage :=
  let createNew := st.activeChatId.isNone
  let chatId :=
    match st.activeChatId with
    | some cid => cid
    | none => newChatId
  let chats0 :=
    if createNew then
      { id := newChatId, title := "New Chat", messages := [] } :: st.chats
    else st.chats
  let userMsg : ChatMessage :=
    { id := userMsgId, role := "user", content := content, sources := none }
  let chats1 := appendToChat chats0 chatId userMsg
  let isFirst : Bool :=
    createNew ||
      (match st.chats.find? (fun c => c.id = chatId) with
       | some c => c.messages.isEmpty
       | none => false)
  let chats2 :=
    if isFirst then retitleChat chats1 chatId (newChatTitle content)
    else chats1
  let asstMsg : ChatMessage :=
    { id := asstMsgId, role := "assistant", content := aiResponse content,
      sources := some mockSources }
  let chats3 := appendToChat chats2 chatId asstMsg
  ({ chats := chats3, activeChatId := some chatId, isLoading := false },
   userMsg, asstMsg)

/-! ## Helper lemmas -/

/-- Membership in `insertByScore` is membership in the original list or
being the inserted element. -/
theorem mem_insertByScore {r a : SearchResult} :
    ∀ {l : List SearchResult}, a ∈ insertByScore r l ↔ a = r ∨ a ∈ l := by
  intro l
  induction l with
  | nil => simp [insertByScore]
  | cons x xs ih =>
      by_cases hc : r.score < x.score
      · simp only [insertByScore, if_pos hc, List.mem_cons, ih]
        tauto
      · simp only [insertByScore, if_neg hc, List.mem_cons]

/-- Inserting into a list sorted by non-increasing score keeps it sorted. -/
theorem pairwise_insertByScore {r : SearchResult} :
    ∀ {l : List SearchResult},
      l.Pairwise (fun a b => b.score ≤ a.score) →
      (insertByScore r l).Pairwise (fun a b => b.score ≤ a.score) := by
  intro l
  induction l with
  | nil => intro _; simp [insertByScore]
  | cons x xs ih =>
      intro h
      rw [List.pairwise_cons] at h
      obtain ⟨hx, hxs⟩ := h
      by_cases hc : r.score < x.score
      · rw [insertByScore, if_pos hc, List.pairwise_cons]
        refine ⟨?_, ih hxs⟩
        intro b hb
        rcases mem_insertByScore.mp hb with hb | hb
        · exact hb ▸ le_of_lt hc
        · exact hx b hb
      · rw [insertByScore, if_neg hc, List.pairwise_cons]
        push_neg at hc
        refine ⟨?_, List.pairwise_cons.mpr ⟨hx, hxs⟩⟩
        intro b hb
        rcases List.mem_cons.mp hb with hb | hb
        · exact hb ▸ hc
        · exact le_trans (hx b hb) hc

/-- `sortByScoreDesc` sorts by non-increasing score. -/
theorem pairwise_sortByScoreDesc (l : List SearchResult) :
    (sortByScoreDesc l).Pairwise (fun a b => b.score ≤ a.score) := by
  induction l with
  | nil => simp [sortByScoreDesc]
  | cons x xs ih => exact pairwise_insertByScore ih

/-- `sortByScoreDesc` permutes membership. -/
theorem mem_sortByScoreDesc {a : SearchResult} :
    ∀ {l : List SearchResult}, a ∈ sortByScoreDesc l ↔ a ∈ l := by
  intro l
  induction l with
  | nil => simp [sortByScoreDesc]
  | cons x xs ih =>
      simp only [sortByScoreDesc, mem_insertByScore, List.mem_cons, ih]

/-- The clamped score lies in `[0,1]`. -/
theorem clamp01_mem (x : ℚ) : 0 ≤ clamp01 x ∧ clamp01 x ≤ 1 :=
  ⟨le_max_left 0 (min 1 x), max_le zero_le_one (min_le_left 1 x)⟩

/-- Range of an optional override merged over an in-range previous value. -/
theorem optInRange_getD {lo hi d : ℚ} {o : Option ℚ}
    (hd : lo ≤ d ∧ d ≤ hi) (ho : optInRange lo hi o) :
    lo ≤ o.getD d ∧ o.getD d ≤ hi := by
  cases o with
  | none => exact hd
  | some x => exact ho

/-- `updateSettings` keeps all fields in range when the previous settings
and every provided field are in range. -/
theorem updateSettings_preserves_range (s : Settings) (u : SettingsUpdate)
    (hs : settingsInRange s) (hu : updateInRange u) :
    settingsInRange (updateSettings s u) := by
  obtain ⟨hs1, hs2, hs3, hs4⟩ := hs
  obtain ⟨hu1, hu2, hu3, hu4⟩ := hu
  exact ⟨optInRange_getD hs1 hu1, optInRange_getD hs2 hu2,
    optInRange_getD hs3 hu3, optInRange_getD hs4 hu4⟩

/-! ## Claims -/

/-- C1, corrected, counterexample: calling `sendMessage` with the embedding
model `not_loaded` on a fresh state produces an assistant message whose
source list is the fixed two-element mock list, not the empty list the
claim requires. -/
theorem sendMessage_not_loaded_sources_counterexample :
    (sendMessage ModelStatus.not_loaded
        { chats := [], activeChatId := none, isLoading := false }
        "hi" "c1" "m1" "m2").2.2.sources ≠ some ([] : List DocumentSource) ∧
    (sendMessage ModelStatus.not_loaded
        { chats := [], activeChatId := none, isLoading := false }
        "hi" "c1" "m1" "m2").2.2.sources = some mockSources := by
  constructor
  · decide
  · rfl

/-- C1, corrected, amended claim: `sendMessage` never consults the
embedding model state; whatever that state is, the call still produces an
assistant message (generated from the fixed mock template, without
grounding), but the message carries the fixed two-element `mockSources`
list (relevances 0.92 and 0.85), never an empty source list. -/
theorem sendMessage_assistant_mock_sources (modelStatus : ModelStatus)
    (st : ChatState) (content newChatId userMsgId asstMsgId : String) :
    (sendMessage modelStatus st content newChatId userMsgId
        asstMsgId).2.2.role = "assistant" ∧
    (sendMessage modelStatus st content newChatId userMsgId
        asstMsgId).2.2.content = aiResponse content ∧
    (sendMessage modelStatus st content newChatId userMsgId
        asstMsgId).2.2.sources = some mockSources ∧
    mockSources.length = 2 :=
  ⟨rfl, rfl, rfl, rfl⟩

/-- C2, corrected, counterexample: searching while the model is
`not_loaded` over a non-empty backend index returns the ordinary successful
result `[]` — it does not fail with any error. -/
theorem search_not_ready_counterexample :
    search ModelStatus.not_loaded "refund policy"
        (Except.ok [{ chunk_id := "c1", document_id := "d1",
                      content := "chunk text", score := 9/10 }])
      = Except.ok [] := rfl

/-- C2, corrected, amended claim: `search` invoked while the embedding
model state is not `ready` returns the successful empty result list (after
logging a console warning) for every query and every backend outcome — it
degrades to "no context" instead of failing with a `ModelNotReady` error. -/
theorem search_not_ready_returns_empty (modelStatus : ModelStatus)
    (query : String) (backend : Except String (List SearchResult))
    (h : modelStatus ≠ ModelStatus.ready) :
    search modelStatus query backend = Except.ok [] := by
  unfold search
  rw [if_pos h]

/-- Witness for `search_not_ready_returns_empty` at a concrete non-ready
status, query, and backend result. -/
theorem search_not_ready_returns_empty_witness :
    ModelStatus.loading ≠ ModelStatus.ready ∧
    search ModelStatus.loading "refund policy"
        (Except.ok [{ chunk_id := "c1", document_id := "d1",
                      content := "chunk text", score := 9/10 }])
      = Except.ok [] :=
  ⟨by decide, search_not_ready_returns_empty _ _ _ (by decide)⟩

/-- C3, corrected, counterexample: from the initial `ready` state, the
event sequence rebuild-click, upload-accepted, upload-timer-fired,
rebuild-click leaves two rebuilds running at once — the upload's stale
1500 ms timer resets the status to `ready` while the first rebuild is
still inside its 2000 ms delay, so the Rebuild button is re-enabled and a
second rebuild starts concurrently. -/
theorem concurrent_rebuilds_counterexample :
    (indexRun initialIndexState
        [IndexEvent.rebuildClicked, IndexEvent.uploadAccepted,
         IndexEvent.uploadTimerFired, IndexEvent.rebuildClicked])
      = { status := IndexStatus.indexing, pendingUploadTimers := 0,
          runningRebuilds := 2 } := by
  decide

/-- C3, corrected, amended claim: a rebuild request made while the index
status reads `indexing` is rejected (the button is disabled, so the click
changes nothing — it is neither started nor queued); but this guards only
the displayed status, not rebuild execution, so two rebuilds can still run
concurrently once a stale upload timer resets the status to `ready`. -/
theorem rebuild_rejected_while_indexing (s : IndexState)
    (h : s.status = IndexStatus.indexing) :
    indexStep s IndexEvent.rebuildClicked = s := by
  simp [indexStep, h]

/-- Witness for `rebuild_rejected_while_indexing` at a concrete state with
a rebuild in progress. -/
theorem rebuild_rejected_while_indexing_witness :
    ({ status := IndexStatus.indexing, pendingUploadTimers := 0,
       runningRebuilds := 1 } : IndexState).status = IndexStatus.indexing ∧
    indexStep
        ({ status := IndexStatus.indexing, pendingUploadTimers := 0,
           runningRebuilds := 1 }) IndexEvent.rebuildClicked
      = ({ status := IndexStatus.indexing, pendingUploadTimers := 0,
           runningRebuilds := 1 }) :=
  ⟨rfl, rebuild_rejected_while_indexing _ rfl⟩

/-- C4, confirmed: a successful upload from a `ready` state drives the
index status through exactly `ready → indexing → ready` — the accept
handler writes `indexing`, and the indexing-completion timer it scheduled
writes `ready`. -/
theorem upload_status_transition (s : IndexState)
    (h : s.status = IndexStatus.ready) :
    [s.status,
     (indexStep s IndexEvent.uploadAccepted).status,
     (indexStep (indexStep s IndexEvent.uploadAccepted)
        IndexEvent.uploadTimerFired).status]
      = [IndexStatus.ready, IndexStatus.indexing, IndexStatus.ready] := by
  simp [indexStep, h]

/-- Witness for `upload_status_transition` at the initial state. -/
theorem upload_status_transition_witness :
    initialIndexState.status = IndexStatus.ready ∧
    [initialIndexState.status,
     (indexStep initialIndexState IndexEvent.uploadAccepted).status,
     (indexStep (indexStep initialIndexState IndexEvent.uploadAccepted)
        IndexEvent.uploadTimerFired).status]
      = [IndexStatus.ready, IndexStatus.indexing, IndexStatus.ready] :=
  ⟨rfl, upload_status_transition initialIndexState rfl⟩

/-- C5, confirmed: `searchDocuments` always returns results sorted by
non-increasing score, of length at most `topK`, with every returned score
in `[0,1]`; and the source list attached to every assistant message
(`mockSources`, by `sendMessage`) is ordered by non-increasing relevance
with every relevance in `[0,1]`. -/
theorem searchDocuments_sorted_bounded (entries : List SearchResult)
    (topK : ℕ) :
    (searchDocuments entries topK).Pairwise
        (fun a b => b.score ≤ a.score) ∧
    (searchDocuments entries topK).length ≤ topK ∧
    (∀ r ∈ searchDocuments entries topK, 0 ≤ r.score ∧ r.score ≤ 1) ∧
    mockSources.Pairwise (fun a b => b.relevance ≤ a.relevance) ∧
    (∀ src ∈ mockSources, 0 ≤ src.relevance ∧ src.relevance ≤ 1) := by
  refine ⟨?_, ?_, ?_, ?_, ?_⟩
  · exact List.Pairwise.sublist (List.take_sublist _ _)
      (pairwise_sortByScoreDesc _)
  · exact List.length_take_le _ _
  · intro r hr
    have hr2 : r ∈ sortByScoreDesc
        (entries.map (fun e => { e with score := clamp01 e.score })) :=
      (List.take_sublist _ _).subset hr
    have hr3 := mem_sortByScoreDesc.mp hr2
    obtain ⟨e, _, he⟩ := List.mem_map.mp hr3
    have hc := clamp01_mem e.score
    rw [← he]
    exact hc
  · norm_num [mockSources, List.pairwise_cons]
  · intro src hsrc
    simp only [mockSources, List.mem_cons, List.not_mem_nil, or_false] at hsrc
    rcases hsrc with h | h <;> subst h <;> norm_num

/-- C6, corrected, counterexample: a single `updateSettings` call with
`temperature = 2` drives the settings state out of the configured ranges —
the updater spreads the update over the previous state with no clamping or
validation. -/
theorem updateSettings_out_of_range_counterexample :
    ¬ settingsInRange (updateSettings defaultSettings
        { temperature := some 2 }) := by
  decide

/-- C6, corrected, amended claim: the initial `defaultSettings` satisfy the
configured ranges, and `updateSettings` and persisted-settings loading
preserve them only conditionally — both merge the supplied fields verbatim,
so the invariant holds exactly when every supplied field value itself lies
within its range (absent or unparseable storage falls back to the in-range
defaults). -/
theorem settings_ranges_amended :
    settingsInRange defaultSettings ∧
    (∀ s u, settingsInRange s → updateInRange u →
      settingsInRange (updateSettings s u)) ∧
    (∀ stored, (∀ u, stored = some (Except.ok u) → updateInRange u) →
      settingsInRange (loadSettings stored)) := by
  refine ⟨?_, updateSettings_preserves_range, ?_⟩
  · norm_num [settingsInRange, defaultSettings]
  · intro stored h
    match stored with
    | none => norm_num [loadSettings, settingsInRange, defaultSettings]
    | some (Except.error e) =>
        norm_num [loadSettings, settingsInRange, defaultSettings]
    | some (Except.ok u) =>
        exact updateSettings_preserves_range defaultSettings u
          (by norm_num [settingsInRange, defaultSettings]) (h u rfl)

/-- Witness for `settings_ranges_amended`: a concrete in-range update and a
concrete absent-storage load. -/
theorem settings_ranges_amended_witness :
    settingsInRange (updateSettings defaultSettings
      { temperature := some 1 }) ∧
    settingsInRange (loadSettings none) :=
  ⟨settings_ranges_amended.2.1 defaultSettings { temperature := some 1 }
      (by norm_num [settingsInRange, defaultSettings]) (by decide),
   settings_ranges_amended.2.2 none (fun u h => nomatch h)⟩

/-- C7, confirmed: when the backend reports the embedding model already
loaded (`is_model_loaded` true, which holds whenever the state is already
`ready`), `initModel` does not invoke `init_embedding_model` — no second
load starts, whatever a load would have returned — and its final status
write is `ready`. -/
theorem initModel_noop_when_loaded (loadResult : Except String Unit) :
    (initModel true loadResult).2 = false ∧
    (initModel true loadResult).1.getLast? = some ModelStatus.ready :=
  ⟨rfl, rfl⟩

/-- C8, confirmed: while a response is pending (`isLoading` true), the send
handler rejects the new-message action — it dispatches nothing, for every
message text and every value of `disabled`. -/
theorem handleSend_rejected_while_loading (message : String)
    (disabled : Bool) :
    handleSend message disabled true = none := by
  simp [handleSend]

/-- C9, confirmed: chunking a 1,200-character text with `chunkSize = 512`
and `overlap = 64` yields exactly the three windows `[0,512)`, `[448,960)`,
`[896,1200)` — windows advance by `chunkSize - overlap = 448` and the final
window is truncated at the text's end. -/
theorem chunk_1200_512_64 :
    chunk 1200 512 64 = Except.ok [(0, 512), (448, 960), (896, 1200)] :=
  rfl

/-- C10, confirmed: `convertBackendMessage` is total and degrades
gracefully — `id`, `role`, `content` and `timestamp` are converted as
usual, and the attached `sources` value is exactly the parse outcome of the
backend's nullable string: `none` for a null field or a string `JSON.parse`
rejects, and the parsed value unchanged when parsing succeeds. The single
hypothesis records that `JSON.parse` rejects the empty string, which the
code's truthiness test skips on its own. -/
theorem convertBackendMessage_graceful (parseJson : String → Option Json)
    (hp : parseJson "" = none) (backend : BackendMessage) :
    (convertBackendMessage parseJson backend).id = backend.id ∧
    (convertBackendMessage parseJson backend).role = backend.role ∧
    (convertBackendMessage parseJson backend).content = backend.content ∧
    (convertBackendMessage parseJson backend).timestamp.iso
      = backend.timestamp ∧
    (convertBackendMessage parseJson backend).sources
      = backend.sources.bind parseJson := by
  refine ⟨rfl, rfl, rfl, rfl, ?_⟩
  rcases backend with ⟨id, cid, role, content, ts, sources⟩
  cases sources with
  | none => rfl
  | some s =>
      by_cases he : s = ""
      · subst he
        simp [convertBackendMessage, hp]
      · simp [convertBackendMessage, he]

/-- Witness for `convertBackendMessage_graceful` at a parser rejecting
everything and a backend message whose sources string is not valid JSON. -/
theorem convertBackendMessage_graceful_witness :
    ((fun _ : String => (none : Option Json)) "" = none) ∧
    ((convertBackendMessage (fun _ => none)
        { id := "m1", chat_id := "c1", role := "assistant",
          content := "hello", timestamp := "2024-01-01T00:00:00Z",
          sources := some "not json" }).sources
      = (some "not json" : Option String).bind (fun _ => none)) :=
  ⟨rfl, (convertBackendMessage_graceful (fun _ => none) rfl _).2.2.2.2⟩

end LocalChatbot
